import Mathlib

/-!
Verification of the AccessCheck accessibility analyzer (src/main.py).

The development shallowly embeds the program: the parsed HTML document
(the BeautifulSoup tree) is a purely functional forest of nodes, every
checker from the source is translated into a Lean function field by
field, and the runner `analyze` is modelled over the parsed document
(network fetching and printing are I/O glue outside the analysis core).

Numeric note: the source computes percentages with Python floats; the
embedding uses exact rationals (ℚ), the idealized arithmetic the
percentage formulas denote.  String helpers (`pyStrip`, `pyLower`,
`pyUpper`, `pyTake`) model the Python `str` methods used by the source
over the character sequence of a string.
-/

namespace AccessCheck

/-- Models Python `str.strip()`: drop leading and trailing whitespace. -/
def pyStrip (s : String) : String :=
  ⟨((s.data.dropWhile Char.isWhitespace).reverse.dropWhile Char.isWhitespace).reverse⟩

/-- Models Python `str.lower()` (ASCII range, which covers all strings the checks compare). -/
def pyLower (s : String) : String :=
  ⟨s.data.map Char.toLower⟩

/-- Models Python `str.upper()` (ASCII range). -/
def pyUpper (s : String) : String :=
  ⟨s.data.map Char.toUpper⟩

/-- Models Python slicing `s[:n]` (first `n` code points). -/
def pyTake (s : String) (n : Nat) : String :=
  ⟨s.data.take n⟩

/-- A node of the parsed HTML tree: an element with tag name, attributes and
children, or a text node.  This is the document model the checkers query. -/
inductive Node where
  | elem (tag : String) (attrs : List (String × String)) (children : List Node)
  | text (s : String)

/-- A parsed document: the forest of top-level nodes of the tree. -/
abbrev Doc := List Node

/-- Attribute lookup in an attribute list (models `Tag.get` / dict lookup). -/
def getAttr (attrs : List (String × String)) (k : String) : Option String :=
  (attrs.find? (fun p => p.1 == k)).map Prod.snd

/-- Models `element.get(key)` from the source: `None` for text nodes or absent keys. -/
def Node.get : Node → String → Option String
  | .elem _ a _, k => getAttr a k
  | .text _, _ => none

/-- Models `element.has_attr(key)`. -/
def Node.has_attr (n : Node) (k : String) : Bool :=
  (n.get k).isSome

mutual
/-- Pre-order collection of the elements satisfying a tag/attribute predicate,
the semantics of BeautifulSoup `find_all` (document order). -/
def findAllNode (p : String → List (String × String) → Bool) : Node → List Node
  | .text _ => []
  | .elem t a cs => (if p t a then [Node.elem t a cs] else []) ++ findAllList p cs
/-- The function `findAllNode` extended over a forest. -/
def findAllList (p : String → List (String × String) → Bool) : List Node → List Node
  | [] => []
  | n :: ns => findAllNode p n ++ findAllList p ns
end

/-- Models `soup.find_all(tag)`. -/
def find_all (d : Doc) (t : String) : List Node :=
  findAllList (fun tg _ => tg == t) d

/-- Models `soup.find(tag)`: the first element with the given tag, if any. -/
def find_first (d : Doc) (t : String) : Option Node :=
  (find_all d t).head?

/-- All elements with the given tag carrying attribute `k` equal to `v`,
the list behind the attribute-filtered find_all of BeautifulSoup. -/
def find_all_attr (d : Doc) (t k v : String) : List Node :=
  findAllList (fun tg a => tg == t && getAttr a k == some v) d

/-- Models the attribute-filtered find, the first element of `find_all_attr`. -/
def find_attr (d : Doc) (t k v : String) : Option Node :=
  (find_all_attr d t k v).head?

mutual
/-- The raw strings of the text nodes below a node, in document order. -/
def textPieces : Node → List String
  | .text s => [s]
  | .elem _ _ cs => textPiecesList cs
/-- The function `textPieces` extended over a forest. -/
def textPiecesList : List Node → List String
  | [] => []
  | n :: ns => textPieces n ++ textPiecesList ns
end

/-- Models `element.get_text(separator=sep, strip=True)`: each descendant text
piece stripped, empties dropped, the rest joined with the separator. -/
def get_text (n : Node) (sep : String) : String :=
  String.intercalate sep (((textPieces n).map pyStrip).filter (fun s => s != ""))

/-- Models BeautifulSoup `Tag.string`: a single text child (through single-child
chains) or nothing.  Used only by the title check. -/
def node_string : Node → Option String
  | .text s => some s
  | .elem _ _ [c] => node_string c
  | .elem _ _ _ => none

/-- Serialization of a node back to markup, standing for Python `str(tag)`
in the detail line of the viewport check. -/
def renderAttrs : List (String × String) → String
  | [] => ""
  | (k, v) :: rest => " " ++ k ++ "=\"" ++ v ++ "\"" ++ renderAttrs rest

mutual
/-- Node serializer standing for Python str(tag), companion of `renderAttrs`. -/
def renderNode : Node → String
  | .text s => s
  | .elem t a cs => "<" ++ t ++ renderAttrs a ++ ">" ++ renderList cs ++ "</" ++ t ++ ">"
/-- The function `renderNode` extended over a forest. -/
def renderList : List Node → String
  | [] => ""
  | n :: ns => renderNode n ++ renderList ns
end

/-- Translation of `percent` from the source: n / d * 100, and 0 for a zero denominator. -/
def percent (n d : Nat) : ℚ :=
  if d = 0 then 0 else (n : ℚ) / d * 100

/-- The three-way grading expression the source writes inline as
`"good" if pct >= hi else "warn" if pct >= lo else "fail"`. -/
def statusFromPct (pct hi lo : ℚ) : String :=
  if hi ≤ pct then "good" else if lo ≤ pct then "warn" else "fail"

/-- Models Python float formatting with zero decimal places on the exact
rational value: round half to even to an integer. -/
def format0f (q : ℚ) : String :=
  let n := q.num / (q.den : Int)
  let r := q.num % (q.den : Int)
  let rounded :=
    if 2 * r < (q.den : Int) then n
    else if (q.den : Int) < 2 * r then n + 1
    else if n % 2 = 0 then n else n + 1
  toString rounded

/-- The `Card` dataclass of the source (a.k.a. Finding): one result per check. -/
structure Card where
  id : String
  title : String
  status : String
  summary : String
  details : List String
  recommendation : Option String := none
deriving DecidableEq

/-- The traffic-light glyph for a status (dict lookup with default in the source). -/
def Card.traffic (c : Card) : String :=
  if c.status == "good" then "🟢"
  else if c.status == "warn" then "🟡"
  else if c.status == "fail" then "🔴" else "⚪"

/-- Translation of `Card.to_markdown` from the source. -/
def Card.to_markdown (c : Card) : String :=
  let md := ["### " ++ c.traffic ++ " " ++ c.title,
             "**Status:** " ++ pyUpper c.status,
             "**Summary:** " ++ c.summary]
  let md := if c.details.isEmpty then md
            else md ++ ("**Details:**" :: c.details.map (fun dd => "- " ++ dd))
  let md := match c.recommendation with
            | some r => if r != "" then md ++ ["**Recommendation:** " ++ r] else md
            | none => md
  String.intercalate "\n" md

/-- The `Report` dataclass of the source: URL plus the ordered cards. -/
structure Report where
  url : String
  cards : List Card
deriving DecidableEq

/-- Translation of `Report.score`: the (good, warn, fail) tally. -/
def Report.score (r : Report) : Nat × Nat × Nat :=
  ((r.cards.filter (fun c => c.status == "good")).length,
   (r.cards.filter (fun c => c.status == "warn")).length,
   (r.cards.filter (fun c => c.status == "fail")).length)

/-- The JSON values `Report.to_json` produces (Python dict/list/str/None,
dict fields in insertion order as `dataclasses.asdict` yields them). -/
inductive Json where
  | null
  | str (s : String)
  | arr (xs : List Json)
  | obj (fields : List (String × Json))

/-- Models `dataclasses.asdict` on a `Card`. -/
def Card.to_json (c : Card) : Json :=
  .obj [("id", .str c.id), ("title", .str c.title), ("status", .str c.status),
        ("summary", .str c.summary), ("details", .arr (c.details.map Json.str)),
        ("recommendation", match c.recommendation with
                           | some s => .str s
                           | none => .null)]

/-- Translation of `Report.to_json` from the source. -/
def Report.to_json (r : Report) : Json :=
  .obj [("url", .str r.url), ("cards", .arr (r.cards.map Card.to_json))]

/-- Translation of `Report.to_markdown` from the source. -/
def Report.to_markdown (r : Report) : String :=
  let s := r.score
  let head := ["# AccessCheck – Accessibility Analyzer",
               "**URL:** " ++ r.url,
               "**Summary:** 🟢 " ++ toString s.1 ++ "  🟡 " ++ toString s.2.1 ++
                 "  🔴 " ++ toString s.2.2,
               "", "---", ""]
  let body := r.cards.flatMap (fun c => [c.to_markdown, ""])
  String.intercalate "\n" (head ++ body)

/-- The key list of a JSON object (empty for non-objects). -/
def Json.keys : Json → List String
  | .obj fs => fs.map Prod.fst
  | _ => []

/-- Field lookup in a JSON object. -/
def Json.lookup : Json → String → Option Json
  | .obj fs, k => (fs.find? (fun p => p.1 == k)).map Prod.snd
  | _, _ => none

/-! ## The seven checks, translated from src/main.py -/

/-- Translation of `has_meaningful_text` from the source: strip, lowercase, then require
non-empty, not a generic phrase, and at least three characters. -/
def has_meaningful_text (text : String) : Bool :=
  let stripped := pyLower (pyStrip text)
  if stripped == "" then false
  else
    let bad := ["click here", "here", "more", "link", "learn more", "read more"]
    !(bad.contains stripped) && decide (3 ≤ stripped.length)

/-- The loop body of `heading_level_ok`: walking the level list with its
predecessor, record a warning whenever a level exceeds the previous one by
more than 1 (`(lvl - prev) > 1` on Python ints).  `i` is the 0-based index. -/
def headingJumpWarnings : Option Nat → Nat → List Nat → List String
  | _, _, [] => []
  | prev, i, lvl :: rest =>
      (match prev with
       | some p =>
           if p + 1 < lvl then
             ["Heading jump at position " ++ toString (i + 1) ++ ": h" ++ toString p ++
               " -> h" ++ toString lvl]
           else []
       | none => []) ++ headingJumpWarnings (some lvl) (i + 1) rest

/-- Translation of `heading_level_ok` from the source.  In the source `ok` is set to `False`
exactly when a warning is appended, so `ok` equals the warning list being empty. -/
def heading_level_ok (levels : List Nat) : Bool × List String :=
  let warnings := headingJumpWarnings none 0 levels
  (warnings.isEmpty, warnings)

mutual
/-- Pre-order collection of form controls (`input`, `select`, `textarea`) paired
with whether a `label` element occurs among their ancestors.  The Boolean flag
carried down the traversal replaces the parent-chain walk of the source (`parent`
pointers do not exist in a purely functional tree); it is true exactly when the
wrap-case loop of the source in `find_label_for_input` would succeed. -/
def controlsNode (underLabel : Bool) : Node → List (Node × Bool)
  | .text _ => []
  | .elem t a cs =>
      (if ["input", "select", "textarea"].contains t then [(Node.elem t a cs, underLabel)]
       else []) ++ controlsList (underLabel || t == "label") cs
/-- The function `controlsNode` extended over a forest. -/
def controlsList (underLabel : Bool) : List Node → List (Node × Bool)
  | [] => []
  | n :: ns => controlsNode underLabel n ++ controlsList underLabel ns
end

/-- Translation of `find_label_for_input` from the source: a truthy (non-empty) `id` matched by
some `label[for=id]`, or the wrap case (a `label` ancestor, here the flag). -/
def find_label_for_input (d : Doc) (ctrl : Node) (underLabel : Bool) : Bool :=
  (match ctrl.get "id" with
   | some el_id => el_id != "" && (find_attr d "label" "for" el_id).isSome
   | none => false) || underLabel

/-- The images of a document; the local variable `imgs` of the source. -/
def imgsOf (d : Doc) : List Node :=
  find_all d "img"

/-- The local variable `with_alt` of the source: images whose `alt` attribute is present with
non-empty stripped value. -/
def withAltCount (d : Doc) : Nat :=
  ((imgsOf d).filter (fun i => i.has_attr "alt" && pyStrip ((i.get "alt").getD "") != "")).length

/-- The local variable `empty_alt` of the source: images whose `alt` is present but blank. -/
def emptyAltCount (d : Doc) : Nat :=
  ((imgsOf d).filter (fun i => i.has_attr "alt" && pyStrip ((i.get "alt").getD "") == "")).length

/-- Translation of `check_images_alt` from the source.  `base_url` is accepted but unused,
exactly as in the source. -/
def check_images_alt (d : Doc) (base_url : String) : Card :=
  let total := (imgsOf d).length
  let with_alt := withAltCount d
  let empty_alt := emptyAltCount d
  let without_alt := total - with_alt - empty_alt
  if total = 0 then
    { id := "img-alt", title := "Images have alt text", status := "good",
      summary := "No images found.", details := [] }
  else
    let pct := percent with_alt total
    { id := "img-alt", title := "Images have alt text",
      status := statusFromPct pct 95 70,
      summary := "Checked for non-empty alt attributes on <img>.",
      details := ["Images total: " ++ toString total,
                  "With non-empty alt: " ++ toString with_alt ++ " (" ++ format0f pct ++ "%)",
                  "With empty alt: " ++ toString empty_alt,
                  "Missing alt: " ++ toString without_alt],
      recommendation :=
        some "Ensure informative images have meaningful alt; decorative images may use empty alt (alt=\"\")." }

/-- The links of a document; the local variable `links` of the source. -/
def linksOf (d : Doc) : List Node :=
  find_all d "a"

/-- The loop counter `good` of the source in `check_links_text`: meaningful link
texts among the first 500 links (`links[:500]`). -/
def meaningfulCount500 (d : Doc) : Nat :=
  (((linksOf d).take 500).filter (fun a => has_meaningful_text (get_text a " "))).length

/-- The accumulator `poor_examples` of the source in `check_links_text`. -/
def poorExamples (d : Doc) : List String :=
  ((linksOf d).take 500).filterMap (fun a =>
    let text := get_text a " "
    if has_meaningful_text text then none
    else
      let href := (a.get "href").getD ""
      let sample := if text != "" then text else pyTake href 50 ++ "…"
      some ("“" ++ sample ++ "”"))

/-- Translation of `check_links_text` from the source. -/
def check_links_text (d : Doc) : Card :=
  let total := (linksOf d).length
  if total = 0 then
    { id := "link-text", title := "Links have meaningful text", status := "warn",
      summary := "No links found.", details := [] }
  else
    let good := meaningfulCount500 d
    let pct := percent good total
    let details0 := ["Links total: " ++ toString total,
                     "Meaningful text: " ++ toString good ++ " (" ++ format0f pct ++ "%)"]
    let details := if ((poorExamples d).take 5).isEmpty then details0
                   else details0 ++
                     ["Examples needing improvement: " ++
                       String.intercalate ", " ((poorExamples d).take 5)]
    { id := "link-text", title := "Links have meaningful text",
      status := statusFromPct pct 90 70,
      summary := "Checked link text for clarity.",
      details := details,
      recommendation :=
        some "Use descriptive link text that makes sense out of context (avoid “click here” or bare URLs)." }

/-- The list `headings` of the source in `check_headings`: for each level 1..6 in
turn, all elements of that tag (so the collection is grouped by level, each
group in document order), paired with the first 80 characters of their text. -/
def headingsOf (d : Doc) : List (Nat × String) :=
  (List.range' 1 6).flatMap (fun level =>
    (find_all d ("h" ++ toString level)).map (fun h => (level, pyTake (get_text h "") 80)))

/-- The list `levels` of the source in `check_headings`. -/
def levelsOf (d : Doc) : List Nat :=
  (headingsOf d).map (fun p => p.1)

/-- Translation of `check_headings` from the source. -/
def check_headings (d : Doc) : Card :=
  let headings := headingsOf d
  let levels := levelsOf d
  if levels.isEmpty then
    { id := "headings", title := "Heading structure", status := "warn",
      summary := "No headings (h1–h6) found.", details := [],
      recommendation := some "Use headings to structure content; start with a single h1." }
  else
    let res := heading_level_ok levels
    let rec0 := if res.1 then none
                else some "Avoid skipping levels (e.g., h1 → h3). Nest sections in order."
    let h1_count := (levels.filter (fun l => l == 1)).length
    let status := if h1_count = 0 then "warn"
                  else if 1 < h1_count then "warn"
                  else if res.1 then "good" else "warn"
    let warnings := res.2 ++
      (if h1_count = 0 then ["No h1 present."]
       else if 1 < h1_count then
         [toString h1_count ++ " h1 headings found; usually only one is recommended."]
       else [])
    { id := "headings", title := "Heading structure", status := status,
      summary := "Checked heading order and presence of h1.",
      details := (toString headings.length ++ " headings found. First 3:") ::
        (headings.take 3).map (fun p => "h" ++ toString p.1 ++ ": “" ++ p.2 ++ "”") ++ warnings,
      recommendation := rec0 }

/-- The filtered `inputs` list of the source in `check_form_labels`: all `input`,
`select`, `textarea` elements (with their label-ancestry flag), hidden
controls (`type=hidden`) excluded. -/
def controlsOf (d : Doc) : List (Node × Bool) :=
  (controlsList false d).filter (fun i => i.1.get "type" != some "hidden")

/-- The count `labeled` of the source in `check_form_labels`. -/
def labeledCount (d : Doc) : Nat :=
  ((controlsOf d).filter (fun i => find_label_for_input d i.1 i.2)).length

/-- Translation of `check_form_labels` from the source. -/
def check_form_labels (d : Doc) : Card :=
  let inputs := controlsOf d
  if inputs.isEmpty then
    { id := "form-labels", title := "Form controls have labels", status := "warn",
      summary := "No form controls found.", details := [] }
  else
    let labeled := labeledCount d
    let pct := percent labeled inputs.length
    { id := "form-labels", title := "Form controls have labels",
      status := statusFromPct pct 95 70,
      summary := "Checked whether inputs/selects/textareas have labels.",
      details := ["Form controls: " ++ toString inputs.length,
                  "Labeled: " ++ toString labeled ++ " (" ++ format0f pct ++ "%)"],
      recommendation :=
        some "Associate each control with a <label for=\"id\"> or wrap the input in a <label>." }

/-- Translation of `check_page_title` from the source. -/
def check_page_title (d : Doc) : Card :=
  let title := match find_first d "title" with
               | some t => match node_string t with
                           | some s => pyStrip s
                           | none => ""
               | none => ""
  if title != "" then
    { id := "title", title := "Page has a descriptive <title>", status := "good",
      summary := "The page has a title element.",
      details := [if title != "" then "Title: “" ++ pyTake title 80 ++ "”"
                  else "Title present."] }
  else
    { id := "title", title := "Missing <title>", status := "fail",
      summary := "No <title> element found.", details := [],
      recommendation := some "Add a clear, concise <title> describing the page." }

/-- Translation of `check_html_lang` from the source. -/
def check_html_lang (d : Doc) : Card :=
  let lang := match find_first d "html" with
              | some h => if h.has_attr "lang" then pyStrip ((h.get "lang").getD "") else ""
              | none => ""
  if lang != "" then
    { id := "lang", title := "Document language is declared", status := "good",
      summary := "html[lang=\x27" ++ lang ++ "\x27] is set.", details := [] }
  else
    { id := "lang", title := "Missing document language", status := "warn",
      summary := "html[lang] is not set.", details := [],
      recommendation := some "Add a language code to <html lang=\"en\"> (or appropriate)." }

/-- Translation of `check_meta_viewport` from the source. -/
def check_meta_viewport (d : Doc) : Card :=
  match find_attr d "meta" "name" "viewport" with
  | some mv =>
      { id := "viewport", title := "Mobile viewport set", status := "good",
        summary := "Meta viewport present.", details := [renderNode mv] }
  | none =>
      { id := "viewport", title := "Missing mobile viewport", status := "warn",
        summary := "No meta viewport tag found.", details := [],
        recommendation :=
          some "Add <meta name=\"viewport\" content=\"width=device-width, initial-scale=1\"> for better mobile access." }

/-! ## The runner (`analyze`) -/

/-- A registered checker: its function name (Python `fn.__name__`) and its
body, run on the document and URL.  A raised exception is modelled as
`Except.error e` with `e` standing for `repr(e)`. -/
structure Checker where
  name : String
  run : Doc → String → Except String Card

/-- The fixed `checks` list of `analyze`, in registration order.  The source
passes `base_url` only to `check_images_alt`; here every entry receives both
arguments and the others ignore the URL, exactly as the dispatch of the source does. -/
def checks : List Checker :=
  [⟨"check_page_title", fun d _ => .ok (check_page_title d)⟩,
   ⟨"check_html_lang", fun d _ => .ok (check_html_lang d)⟩,
   ⟨"check_images_alt", fun d url => .ok (check_images_alt d url)⟩,
   ⟨"check_links_text", fun d _ => .ok (check_links_text d)⟩,
   ⟨"check_headings", fun d _ => .ok (check_headings d)⟩,
   ⟨"check_form_labels", fun d _ => .ok (check_form_labels d)⟩,
   ⟨"check_meta_viewport", fun d _ => .ok (check_meta_viewport d)⟩]

/-- The synthetic card the `except` branch of `analyze` builds for a failing
checker, from the function name of the checker and the description of the exception. -/
def errorCard (name e : String) : Card :=
  { id := name, title := name ++ " (error)", status := "warn",
    summary := "Checker failed to run.", details := [e],
    recommendation := some "Try again or simplify the page for V1." }

/-- One iteration of the runner loop: the card of the checker, or the synthetic
card when it fails. -/
def runCheck (url : String) (d : Doc) (c : Checker) : Card :=
  match c.run d url with
  | .ok card => card
  | .error e => errorCard c.name e

/-- The runner loop of `analyze` over an arbitrary checker list. -/
def runChecks (url : String) (d : Doc) (cs : List Checker) : List Card :=
  cs.map (runCheck url d)

/-- Translation of `analyze` from the source, modelled over the parsed document: the fetch and
parse happen before the loop and the progress bar is display-only, so the
analysis core is the runner loop over the fixed checker list. -/
def analyze (url : String) (d : Doc) : Report :=
  { url := url, cards := runChecks url d checks }

/-! ## Formalisations of claim vocabulary, for comparison with the source -/

/-- Stated labeled-ness from the specification of the form-label check: a
non-empty `aria-label`, an `aria-labelledby`, an `id` matched by some
`label[for=id]`, or a `label` ancestor.  Written from the words of the claim, to be
compared with `find_label_for_input` of the source. -/
def claimLabeled (d : Doc) (ctrl : Node) (underLabel : Bool) : Bool :=
  ((ctrl.get "aria-label").getD "" != "") ||
  (ctrl.get "aria-labelledby").isSome ||
  (match ctrl.get "id" with
   | some el_id => (find_attr d "label" "for" el_id).isSome
   | none => false) ||
  underLabel

/-- The heading level of a tag name, `h1`..`h6`. -/
def tagLevel (t : String) : Option Nat :=
  if t == "h1" then some 1
  else if t == "h2" then some 2
  else if t == "h3" then some 3
  else if t == "h4" then some 4
  else if t == "h5" then some 5
  else if t == "h6" then some 6
  else none

mutual
/-- Heading levels collected in document order (a single pre-order walk),
the collection the headings claim describes.  Written from the words of the claim,
to be compared with the level-grouped `headingsOf` of the source. -/
def docOrderLevelsNode : Node → List Nat
  | .text _ => []
  | .elem t _ cs =>
      (match tagLevel t with
       | some l => [l]
       | none => []) ++ docOrderLevelsList cs
/-- The function `docOrderLevelsNode` extended over a forest. -/
def docOrderLevelsList : List Node → List Nat
  | [] => []
  | n :: ns => docOrderLevelsNode n ++ docOrderLevelsList ns
end

/-- Claimed level-jump violation: some heading level exceeds its predecessor
by more than 1. -/
def hasLevelJump : List Nat → Bool
  | a :: b :: rest => decide (a + 1 < b) || hasLevelJump (b :: rest)
  | _ => false

/-- Stated status of the link-text check from the words of the claim: zero links
give `warn`, otherwise the 90/70 thresholds applied to the fraction of
meaningful links among all links (no cap).  To be compared with
`check_links_text`. -/
def claimLinkStatus (d : Doc) : String :=
  if (linksOf d).length = 0 then "warn"
  else
    let meaningfulCount :=
      ((linksOf d).filter (fun a => has_meaningful_text (get_text a " "))).length
    statusFromPct (percent meaningfulCount (linksOf d).length) 90 70

/-! ## Concrete documents and checkers used as inputs -/

/-- An image with a non-empty `alt`. -/
def imgAlt : Node :=
  .elem "img" [("alt", "Photo of a cat")] []

/-- An image with no `alt` attribute. -/
def imgNoAlt : Node :=
  .elem "img" [("src", "cat.png")] []

/-- A document with `k` images carrying alt text followed by `m` without. -/
def imgsDoc (k m : Nat) : Doc :=
  List.replicate k imgAlt ++ List.replicate m imgNoAlt

/-- A link whose text is meaningful. -/
def linkNode : Node :=
  .elem "a" [("href", "https://example.org/report")] [.text "Download annual report"]

/-- A document of `n` links, each with meaningful text. -/
def linksDoc (n : Nat) : Doc :=
  List.replicate n linkNode

/-- A document whose headings appear in the order h1, h3, h2. -/
def headingsDoc : Doc :=
  [.elem "h1" [] [.text "Alpha"], .elem "h3" [] [.text "Gamma"], .elem "h2" [] [.text "Beta"]]

/-- An input with an `aria-label` and no `id`, the control named by the
form-label claim. -/
def ariaInput : Node :=
  .elem "input" [("aria-label", "Email")] []

/-- A document holding only `ariaInput`. -/
def ariaInputDoc : Doc :=
  [ariaInput]

/-- A document holding only a hidden input. -/
def hiddenInputDoc : Doc :=
  [.elem "input" [("type", "hidden"), ("aria-label", "Email")] []]

/-- A checker that always fails, as injected by the isolation property. -/
def failingChecker : Checker :=
  ⟨"check_boom", fun _ _ => .error "RuntimeError: boom"⟩

/-! ## Helper lemmas -/

theorem percent_le_iff (t n d : Nat) (hd : 0 < d) :
    (t : ℚ) ≤ percent n d ↔ t * d ≤ n * 100 := by
  unfold percent
  rw [if_neg hd.ne.symm, div_mul_eq_mul_div, le_div_iff₀ (by positivity)]
  constructor
  · intro h; exact_mod_cast h
  · intro h; exact_mod_cast h

theorem percent_lt_iff (t n d : Nat) (hd : 0 < d) :
    percent n d < (t : ℚ) ↔ n * 100 < t * d := by
  rw [← not_le, ← not_le, percent_le_iff t n d hd]

theorem statusFromPct_mem (pct hi lo : ℚ) :
    statusFromPct pct hi lo = "good" ∨ statusFromPct pct hi lo = "warn" ∨
      statusFromPct pct hi lo = "fail" := by
  unfold statusFromPct
  split
  · exact Or.inl rfl
  · split
    · exact Or.inr (Or.inl rfl)
    · exact Or.inr (Or.inr rfl)

theorem isEmpty_eq_false_of_length_ne_zero {α : Type} {l : List α}
    (h : l.length ≠ 0) : l.isEmpty = false := by
  cases l with
  | nil => exact absurd rfl h
  | cons a t => rfl

theorem filter_replicate_of_true {α : Type} (p : α → Bool) (a : α) (h : p a = true) :
    ∀ n : Nat, (List.replicate n a).filter p = List.replicate n a := by
  intro n
  induction n with
  | zero => rfl
  | succ n ih => simp [List.replicate_succ, List.filter_cons, h, ih]

theorem findAllList_replicate (p : String → List (String × String) → Bool) (x : Node)
    (hx : findAllNode p x = [x]) :
    ∀ n : Nat, findAllList p (List.replicate n x) = List.replicate n x := by
  intro n
  induction n with
  | zero => rfl
  | succ n ih => simp [List.replicate_succ, findAllList, hx, ih]

theorem findAllList_append (p : String → List (String × String) → Bool) :
    ∀ xs ys : List Node,
      findAllList p (xs ++ ys) = findAllList p xs ++ findAllList p ys := by
  intro xs ys
  induction xs with
  | nil => rfl
  | cons n ns ih => simp [findAllList, ih]

theorem check_images_alt_status (d : Doc) (u : String) (h : (imgsOf d).length ≠ 0) :
    (check_images_alt d u).status =
      statusFromPct (percent (withAltCount d) (imgsOf d).length) 95 70 := by
  unfold check_images_alt
  rw [if_neg h]

theorem check_links_text_status (d : Doc) (h : (linksOf d).length ≠ 0) :
    (check_links_text d).status =
      statusFromPct (percent (meaningfulCount500 d) (linksOf d).length) 90 70 := by
  unfold check_links_text
  rw [if_neg h]

theorem check_form_labels_status (d : Doc) (h : (controlsOf d).length ≠ 0) :
    (check_form_labels d).status =
      statusFromPct (percent (labeledCount d) (controlsOf d).length) 95 70 := by
  unfold check_form_labels
  dsimp only
  rw [isEmpty_eq_false_of_length_ne_zero h]
  rfl

theorem statusFromPct_good {pct hi lo : ℚ} (h : hi ≤ pct) :
    statusFromPct pct hi lo = "good" := by
  unfold statusFromPct
  rw [if_pos h]

theorem statusFromPct_warn {pct hi lo : ℚ} (h1 : pct < hi) (h2 : lo ≤ pct) :
    statusFromPct pct hi lo = "warn" := by
  unfold statusFromPct
  rw [if_neg (not_le.mpr h1), if_pos h2]

theorem statusFromPct_fail {pct hi lo : ℚ} (h1 : pct < hi) (h2 : pct < lo) :
    statusFromPct pct hi lo = "fail" := by
  unfold statusFromPct
  rw [if_neg (not_le.mpr h1), if_neg (not_le.mpr h2)]

theorem check_page_title_id (d : Doc) : (check_page_title d).id = "title" := by
  unfold check_page_title
  dsimp only
  split <;> rfl

theorem check_html_lang_id (d : Doc) : (check_html_lang d).id = "lang" := by
  unfold check_html_lang
  dsimp only
  split <;> rfl

theorem check_images_alt_id (d : Doc) (u : String) : (check_images_alt d u).id = "img-alt" := by
  unfold check_images_alt
  dsimp only
  split <;> rfl

theorem check_links_text_id (d : Doc) : (check_links_text d).id = "link-text" := by
  unfold check_links_text
  dsimp only
  split <;> rfl

theorem check_headings_id (d : Doc) : (check_headings d).id = "headings" := by
  unfold check_headings
  dsimp only
  split <;> rfl

theorem check_form_labels_id (d : Doc) : (check_form_labels d).id = "form-labels" := by
  unfold check_form_labels
  dsimp only
  split <;> rfl

theorem check_meta_viewport_id (d : Doc) : (check_meta_viewport d).id = "viewport" := by
  unfold check_meta_viewport
  split <;> rfl

/-! ## Claim theorems -/

/-- C1: for every document, `analyze` returns a Report whose cards are exactly
one Finding per registered checker — seven in total, the i-th produced by the
i-th registered checker — in the fixed registration order title, language,
image-alt, link-text, headings, form-labels, viewport, regardless of document
content. -/
theorem analyze_cards_per_checker (u : String) (d : Doc) :
    (analyze u d).cards =
      [check_page_title d, check_html_lang d, check_images_alt d u, check_links_text d,
       check_headings d, check_form_labels d, check_meta_viewport d] ∧
    (analyze u d).cards.map Card.id =
      ["title", "lang", "img-alt", "link-text", "headings", "form-labels", "viewport"] ∧
    (analyze u d).cards.length = 7 := by
  refine ⟨rfl, ?_, rfl⟩
  have h : (analyze u d).cards.map Card.id =
      [(check_page_title d).id, (check_html_lang d).id, (check_images_alt d u).id,
       (check_links_text d).id, (check_headings d).id, (check_form_labels d).id,
       (check_meta_viewport d).id] := rfl
  rw [h, check_page_title_id, check_html_lang_id, check_images_alt_id, check_links_text_id,
    check_headings_id, check_form_labels_id, check_meta_viewport_id]

/-- C2 counterexample: running the registered checkers plus an always-failing
checker on a document, the substituted synthetic Finding carries the summary
"Checker failed to run." — with a trailing period — which is not the string
"Checker failed to run" the claim states. -/
theorem checker_failure_summary_counterexample :
    (runChecks "https://example.org" [] (checks ++ [failingChecker])).getLast? =
      some { id := "check_boom", title := "check_boom (error)", status := "warn",
             summary := "Checker failed to run.", details := ["RuntimeError: boom"],
             recommendation := some "Try again or simplify the page for V1." } ∧
    ¬ ("Checker failed to run." = "Checker failed to run") :=
  ⟨rfl, by decide⟩

/-- C2 (amended): if any single checker fails, the runner substitutes a
synthetic `warn` Finding identified by the name of the checker, with summary
"Checker failed to run." (trailing period included), a detail carrying the
description of the failure, and the retry recommendation; every checker that runs
normally still contributes its own Finding at its own position, so the run
never aborts. -/
theorem checker_isolation_amended (u : String) (d : Doc) (cs : List Checker) :
    (runChecks u d cs).length = cs.length ∧
    (∀ (i : Nat) (hi : i < cs.length) (hi2 : i < (runChecks u d cs).length),
      (∀ e, (cs[i]).run d u = .error e →
        (runChecks u d cs)[i] =
          { id := (cs[i]).name, title := (cs[i]).name ++ " (error)", status := "warn",
            summary := "Checker failed to run.", details := [e],
            recommendation := some "Try again or simplify the page for V1." }) ∧
      (∀ c0, (cs[i]).run d u = .ok c0 → (runChecks u d cs)[i] = c0)) := by
  refine ⟨by simp [runChecks], ?_⟩
  intro i hi hi2
  have hmap : (runChecks u d cs)[i] = runCheck u d (cs[i]) := by
    simp [runChecks]
  constructor
  · intro e he
    rw [hmap]
    unfold runCheck
    rw [he]
    rfl
  · intro c0 hc
    rw [hmap]
    unfold runCheck
    rw [hc]

/-- Witness for the amended C2: with the seven registered checkers plus the
always-failing checker, the eighth card is the synthetic Finding and the
Report still holds eight cards. -/
theorem checker_isolation_amended_witness :
    (runChecks "https://example.org" [] (checks ++ [failingChecker])).length = 8 ∧
    (runChecks "https://example.org" [] (checks ++ [failingChecker])).get
        ⟨7, by decide⟩ =
      { id := "check_boom", title := "check_boom (error)", status := "warn",
        summary := "Checker failed to run.", details := ["RuntimeError: boom"],
        recommendation := some "Try again or simplify the page for V1." } := by
  constructor
  · exact ((checker_isolation_amended "https://example.org" []
      (checks ++ [failingChecker])).1).trans rfl
  · exact ((checker_isolation_amended "https://example.org" []
      (checks ++ [failingChecker])).2 7 (by decide) (by decide)).1 "RuntimeError: boom" rfl

/-- C7: the two renderers and the analysis are deterministic pure functions —
equal inputs always produce equal outputs. -/
theorem renderers_deterministic (r1 r2 : Report) (hr : r1 = r2)
    (u1 u2 : String) (d1 d2 : Doc) (hu : u1 = u2) (hd : d1 = d2) :
    Report.to_json r1 = Report.to_json r2 ∧
    Report.to_markdown r1 = Report.to_markdown r2 ∧
    analyze u1 d1 = analyze u2 d2 := by
  subst hr
  subst hu
  subst hd
  exact ⟨rfl, rfl, rfl⟩

/-- Witness for C7 at a concrete Report and input pair. -/
theorem renderers_deterministic_witness :
    Report.to_json (analyze "https://example.org" []) =
      Report.to_json (analyze "https://example.org" []) ∧
    Report.to_markdown (analyze "https://example.org" []) =
      Report.to_markdown (analyze "https://example.org" []) ∧
    analyze "https://example.org" [] = analyze "https://example.org" [] :=
  renderers_deterministic (analyze "https://example.org" []) (analyze "https://example.org" [])
    rfl "https://example.org" "https://example.org" [] [] rfl rfl

/-- C8: for every Report the JSON serialization is an object with exactly the
keys url and cards, and every card object carries exactly the fields id,
title, status, summary, details (the ordered detail list) and recommendation
(string or null), each reproducing the field value of the Finding verbatim. -/
theorem report_json_shape (r : Report) (c : Card) :
    Json.keys (Report.to_json r) = ["url", "cards"] ∧
    Json.lookup (Report.to_json r) "url" = some (.str r.url) ∧
    Json.lookup (Report.to_json r) "cards" = some (.arr (r.cards.map Card.to_json)) ∧
    Json.keys (Card.to_json c) =
      ["id", "title", "status", "summary", "details", "recommendation"] ∧
    Json.lookup (Card.to_json c) "id" = some (.str c.id) ∧
    Json.lookup (Card.to_json c) "title" = some (.str c.title) ∧
    Json.lookup (Card.to_json c) "status" = some (.str c.status) ∧
    Json.lookup (Card.to_json c) "summary" = some (.str c.summary) ∧
    Json.lookup (Card.to_json c) "details" = some (.arr (c.details.map Json.str)) ∧
    Json.lookup (Card.to_json c) "recommendation" =
      some (match c.recommendation with
            | some s => .str s
            | none => .null) :=
  ⟨rfl, rfl, rfl, rfl, rfl, rfl, rfl, rfl, rfl, rfl⟩

theorem check_page_title_status_mem (d : Doc) :
    (check_page_title d).status = "good" ∨ (check_page_title d).status = "warn" ∨
      (check_page_title d).status = "fail" := by
  unfold check_page_title
  dsimp only
  split
  · exact Or.inl rfl
  · exact Or.inr (Or.inr rfl)

theorem check_html_lang_status_mem (d : Doc) :
    (check_html_lang d).status = "good" ∨ (check_html_lang d).status = "warn" ∨
      (check_html_lang d).status = "fail" := by
  unfold check_html_lang
  dsimp only
  split
  · exact Or.inl rfl
  · exact Or.inr (Or.inl rfl)

theorem check_images_alt_status_mem (d : Doc) (u : String) :
    (check_images_alt d u).status = "good" ∨ (check_images_alt d u).status = "warn" ∨
      (check_images_alt d u).status = "fail" := by
  unfold check_images_alt
  dsimp only
  split
  · exact Or.inl rfl
  · exact statusFromPct_mem _ _ _

theorem check_links_text_status_mem (d : Doc) :
    (check_links_text d).status = "good" ∨ (check_links_text d).status = "warn" ∨
      (check_links_text d).status = "fail" := by
  unfold check_links_text
  dsimp only
  split
  · exact Or.inr (Or.inl rfl)
  · exact statusFromPct_mem _ _ _

theorem check_headings_status_mem (d : Doc) :
    (check_headings d).status = "good" ∨ (check_headings d).status = "warn" ∨
      (check_headings d).status = "fail" := by
  unfold check_headings
  dsimp only
  split
  · exact Or.inr (Or.inl rfl)
  · split
    · exact Or.inr (Or.inl rfl)
    · split
      · exact Or.inr (Or.inl rfl)
      · split
        · exact Or.inl rfl
        · exact Or.inr (Or.inl rfl)

theorem check_form_labels_status_mem (d : Doc) :
    (check_form_labels d).status = "good" ∨ (check_form_labels d).status = "warn" ∨
      (check_form_labels d).status = "fail" := by
  unfold check_form_labels
  dsimp only
  split
  · exact Or.inr (Or.inl rfl)
  · exact statusFromPct_mem _ _ _

theorem check_meta_viewport_status_mem (d : Doc) :
    (check_meta_viewport d).status = "good" ∨ (check_meta_viewport d).status = "warn" ∨
      (check_meta_viewport d).status = "fail" := by
  unfold check_meta_viewport
  split
  · exact Or.inl rfl
  · exact Or.inr (Or.inl rfl)

theorem tri_count (cards : List Card)
    (h : ∀ c ∈ cards, c.status = "good" ∨ c.status = "warn" ∨ c.status = "fail") :
    (cards.filter (fun c => c.status == "good")).length +
      (cards.filter (fun c => c.status == "warn")).length +
      (cards.filter (fun c => c.status == "fail")).length = cards.length := by
  induction cards with
  | nil => rfl
  | cons c t ih =>
    have hc := h c (List.mem_cons_self c t)
    have ht := ih (fun x hx => h x (List.mem_cons_of_mem c hx))
    rcases hc with h1 | h1 | h1 <;>
      simp [List.filter_cons, h1, List.length_cons] <;> omega

/-- C9: every card of an analysis Report (and any synthetic card substituted
for a failing checker) has one of the three statuses good, warn, fail, and the
score tally therefore sums to the number of cards. -/
theorem analyze_status_invariant (u : String) (d : Doc) :
    (∀ c ∈ (analyze u d).cards,
      c.status = "good" ∨ c.status = "warn" ∨ c.status = "fail") ∧
    (∀ name e, (errorCard name e).status = "warn") ∧
    (analyze u d).score.1 + (analyze u d).score.2.1 + (analyze u d).score.2.2 =
      (analyze u d).cards.length := by
  have hmem : ∀ c ∈ (analyze u d).cards,
      c.status = "good" ∨ c.status = "warn" ∨ c.status = "fail" := by
    intro c hc
    have hlist : (analyze u d).cards =
        [check_page_title d, check_html_lang d, check_images_alt d u, check_links_text d,
         check_headings d, check_form_labels d, check_meta_viewport d] := rfl
    rw [hlist] at hc
    simp only [List.mem_cons, List.not_mem_nil, or_false] at hc
    rcases hc with rfl | rfl | rfl | rfl | rfl | rfl | rfl
    · exact check_page_title_status_mem d
    · exact check_html_lang_status_mem d
    · exact check_images_alt_status_mem d u
    · exact check_links_text_status_mem d
    · exact check_headings_status_mem d
    · exact check_form_labels_status_mem d
    · exact check_meta_viewport_status_mem d
  exact ⟨hmem, fun name e => rfl, tri_count (analyze u d).cards hmem⟩

/-- Witness for C9 at a concrete card of a concrete analysis and a concrete
synthetic card. -/
theorem analyze_status_invariant_witness :
    ((check_page_title []).status = "good" ∨ (check_page_title []).status = "warn" ∨
      (check_page_title []).status = "fail") ∧
    (errorCard "check_boom" "RuntimeError: boom").status = "warn" :=
  ⟨(analyze_status_invariant "https://example.org" []).1 (check_page_title [])
      (List.Mem.head _),
   (analyze_status_invariant "https://example.org" []).2.1 "check_boom" "RuntimeError: boom"⟩

/-- C3: the image-alt check returns good for a document with no images;
otherwise, with the percentage of images whose trimmed alt text is non-empty
(an absent alt defaulting to the empty string), it returns good at 95 percent
or above, warn from 70 below 95, and fail below 70. -/
theorem images_alt_thresholds (d : Doc) (u : String) :
    ((imgsOf d).length = 0 → (check_images_alt d u).status = "good") ∧
    ((imgsOf d).length ≠ 0 →
      withAltCount d =
        ((imgsOf d).filter (fun i => pyStrip ((i.get "alt").getD "") != "")).length ∧
      ((95 : ℚ) ≤ percent (withAltCount d) (imgsOf d).length →
        (check_images_alt d u).status = "good") ∧
      ((70 : ℚ) ≤ percent (withAltCount d) (imgsOf d).length ∧
          percent (withAltCount d) (imgsOf d).length < 95 →
        (check_images_alt d u).status = "warn") ∧
      (percent (withAltCount d) (imgsOf d).length < 70 →
        (check_images_alt d u).status = "fail")) := by
  constructor
  · intro h
    unfold check_images_alt
    rw [if_pos h]
  · intro h
    refine ⟨?_, ?_, ?_, ?_⟩
    · unfold withAltCount
      congr 1
      apply List.filter_congr
      intro x hx
      cases hh : x.get "alt" with
      | none => simp [Node.has_attr, hh]; rfl
      | some v => simp [Node.has_attr, hh]
    · intro hp
      rw [check_images_alt_status d u h]
      exact statusFromPct_good hp
    · intro hp
      rw [check_images_alt_status d u h]
      exact statusFromPct_warn hp.2 hp.1
    · intro hp
      rw [check_images_alt_status d u h]
      exact statusFromPct_fail (hp.trans_le (by norm_num)) hp

/-- Witness for C3: ten images with nine non-empty alts give warn, ten with
six give fail, and the no-image document gives good. -/
theorem images_alt_thresholds_witness :
    (check_images_alt [] "https://example.org").status = "good" ∧
    (check_images_alt (imgsDoc 9 1) "https://example.org").status = "warn" ∧
    (check_images_alt (imgsDoc 6 4) "https://example.org").status = "fail" := by
  refine ⟨(images_alt_thresholds [] "https://example.org").1 rfl, ?_, ?_⟩
  · refine ((images_alt_thresholds (imgsDoc 9 1) "https://example.org").2
      (by decide)).2.2.1 ⟨?_, ?_⟩
    · show (70 : ℚ) ≤ percent 9 10
      exact_mod_cast (percent_le_iff 70 9 10 (by norm_num)).mpr (by decide)
    · show percent 9 10 < (95 : ℚ)
      exact_mod_cast (percent_lt_iff 95 9 10 (by norm_num)).mpr (by decide)
  · refine ((images_alt_thresholds (imgsDoc 6 4) "https://example.org").2
      (by decide)).2.2.2 ?_
    show percent 6 10 < (70 : ℚ)
    exact_mod_cast (percent_lt_iff 70 6 10 (by norm_num)).mpr (by decide)

theorem head?_isSome_iff {α : Type} (l : List α) : l.head?.isSome = true ↔ l ≠ [] := by
  cases l <;> simp

/-- C5: on the document whose headings appear in the order h1, h3, h2, the
document-order walk the claim describes sees the levels 1, 3, 2 — a jump of
more than one with exactly one h1, so the claim requires status warn — but the
source collects the headings grouped by level, sees 1, 2, 3, flags no jump and
reports status good. -/
theorem headings_level_grouping_bug :
    docOrderLevelsList headingsDoc = [1, 3, 2] ∧
    hasLevelJump (docOrderLevelsList headingsDoc) = true ∧
    (docOrderLevelsList headingsDoc).count 1 = 1 ∧
    levelsOf headingsDoc = [1, 2, 3] ∧
    (heading_level_ok (levelsOf headingsDoc)).1 = true ∧
    (check_headings headingsDoc).status = "good" :=
  ⟨rfl, rfl, rfl, rfl, rfl, rfl⟩

/-- C4 counterexample: a document holding a single input with
aria-label Email and no id.  The labeled-definition of the claim counts it as
labeled, but the source counts zero labeled controls out of one and grades the
check fail. -/
theorem form_labels_aria_counterexample :
    claimLabeled ariaInputDoc ariaInput false = true ∧
    find_label_for_input ariaInputDoc ariaInput false = false ∧
    (controlsOf ariaInputDoc).length = 1 ∧
    labeledCount ariaInputDoc = 0 ∧
    (check_form_labels ariaInputDoc).status = "fail" := by
  refine ⟨rfl, rfl, rfl, rfl, ?_⟩
  rw [check_form_labels_status ariaInputDoc (by decide)]
  show statusFromPct (percent 0 1) 95 70 = "fail"
  refine statusFromPct_fail ?_ ?_
  · exact_mod_cast (percent_lt_iff 95 0 1 (by norm_num)).mpr (by decide)
  · exact_mod_cast (percent_lt_iff 70 0 1 (by norm_num)).mpr (by decide)

/-- C4 (amended): a non-hidden control is counted as labeled exactly when it
has a non-empty id matched by some `label[for=id]` in the document or it is a
descendant of a label element; `aria-label` and `aria-labelledby` are not
consulted, so an input with `aria-label="Email"` and no id is counted as
unlabeled.  An `input[type=hidden]` stays excluded from the totals. -/
theorem form_labels_labeled_amended (d : Doc) (ctrl : Node) (underLabel : Bool) :
    (find_label_for_input d ctrl underLabel = true ↔
      ((∃ el_id, ctrl.get "id" = some el_id ∧ el_id ≠ "" ∧
        find_all_attr d "label" "for" el_id ≠ []) ∨ underLabel = true)) ∧
    find_label_for_input ariaInputDoc ariaInput false = false ∧
    (check_form_labels hiddenInputDoc).summary = "No form controls found." ∧
    (check_form_labels hiddenInputDoc).status = "warn" := by
  refine ⟨?_, rfl, rfl, rfl⟩
  unfold find_label_for_input
  cases hid : ctrl.get "id" with
  | none => simp [hid]
  | some el_id => simp [hid, find_attr, head?_isSome_iff, bne_iff_ne]

theorem linksOf_linksDoc (n : Nat) : linksOf (linksDoc n) = List.replicate n linkNode := by
  unfold linksOf linksDoc find_all
  exact findAllList_replicate (fun tg _ => tg == "a") linkNode rfl n

theorem meaningfulCount500_linksDoc (n : Nat) :
    meaningfulCount500 (linksDoc n) = min 500 n := by
  unfold meaningfulCount500
  rw [linksOf_linksDoc, List.take_replicate,
    filter_replicate_of_true _ linkNode rfl, List.length_replicate]

/-- C6 counterexample: a document of 556 links, each with meaningful text.
Counting meaningfulness over all links, as the claim states, yields 100
percent and status good; the source counts only the first 500 of the 556 and
grades 500/556 ≈ 89.9 percent, status warn. -/
theorem link_text_cap_counterexample :
    claimLinkStatus (linksDoc 556) = "good" ∧
    (check_links_text (linksDoc 556)).status = "warn" := by
  constructor
  · unfold claimLinkStatus
    rw [linksOf_linksDoc]
    dsimp only
    rw [List.length_replicate, if_neg (by decide),
      filter_replicate_of_true _ linkNode rfl, List.length_replicate]
    refine statusFromPct_good ?_
    exact_mod_cast (percent_le_iff 90 556 556 (by norm_num)).mpr (by decide)
  · have h0 : (linksOf (linksDoc 556)).length ≠ 0 := by
      rw [linksOf_linksDoc, List.length_replicate]
      decide
    rw [check_links_text_status _ h0, meaningfulCount500_linksDoc, linksOf_linksDoc,
      List.length_replicate, show min 500 556 = 500 from by decide]
    refine statusFromPct_warn ?_ ?_
    · exact_mod_cast (percent_lt_iff 90 500 556 (by norm_num)).mpr (by decide)
    · exact_mod_cast (percent_le_iff 70 500 556 (by norm_num)).mpr (by decide)

/-- C6 (amended): a link text is meaningful exactly when its trimmed,
lowercased form is non-empty, at least 3 characters, and not in the fixed
generic-phrase set (so "Click here" is non-meaningful in any letter case);
zero links give warn; otherwise the 90/70 thresholds apply to percentGood
computed from the meaningful count among the first 500 links over the total
link count. -/
theorem link_text_spec_amended (d : Doc) :
    (∀ t : String, has_meaningful_text t = true ↔
      (pyLower (pyStrip t) ≠ "" ∧
        pyLower (pyStrip t) ∉
          (["click here", "here", "more", "link", "learn more", "read more"] : List String) ∧
        3 ≤ (pyLower (pyStrip t)).length)) ∧
    has_meaningful_text "Click here" = false ∧
    has_meaningful_text "CLICK HERE" = false ∧
    has_meaningful_text "Download annual report" = true ∧
    ((linksOf d).length = 0 → (check_links_text d).status = "warn") ∧
    ((linksOf d).length ≠ 0 →
      ((90 : ℚ) ≤ percent (meaningfulCount500 d) (linksOf d).length →
        (check_links_text d).status = "good") ∧
      (((70 : ℚ) ≤ percent (meaningfulCount500 d) (linksOf d).length ∧
          percent (meaningfulCount500 d) (linksOf d).length < 90) →
        (check_links_text d).status = "warn") ∧
      (percent (meaningfulCount500 d) (linksOf d).length < 70 →
        (check_links_text d).status = "fail")) := by
  refine ⟨?_, rfl, rfl, rfl, ?_, ?_⟩
  · intro t
    unfold has_meaningful_text
    dsimp only
    by_cases hs : pyLower (pyStrip t) = ""
    · simp [hs]
    · rw [if_neg (by simp [hs])]
      simp [hs, List.elem_iff]
  · intro h
    unfold check_links_text
    dsimp only
    rw [if_pos h]
  · intro h
    refine ⟨?_, ?_, ?_⟩
    · intro hp
      rw [check_links_text_status d h]
      exact statusFromPct_good hp
    · intro hp
      rw [check_links_text_status d h]
      exact statusFromPct_warn hp.2 hp.1
    · intro hp
      rw [check_links_text_status d h]
      exact statusFromPct_fail (hp.trans_le (by norm_num)) hp

/-- Witness for the amended C6: no links give warn, ten meaningful links give
good. -/
theorem link_text_spec_amended_witness :
    (check_links_text []).status = "warn" ∧
    (check_links_text (linksDoc 10)).status = "good" := by
  constructor
  · exact (link_text_spec_amended []).2.2.2.2.1 rfl
  · have h0 : (linksOf (linksDoc 10)).length ≠ 0 := by
      rw [linksOf_linksDoc, List.length_replicate]
      decide
    refine ((link_text_spec_amended (linksDoc 10)).2.2.2.2.2 h0).1 ?_
    rw [meaningfulCount500_linksDoc, linksOf_linksDoc, List.length_replicate,
      show min 500 10 = 10 from by decide]
    exact_mod_cast (percent_le_iff 90 10 10 (by norm_num)).mpr (by decide)

/-- C10: for a document of more than 500 links all of whose texts are
meaningful, the check classifies only the first 500 while dividing by the
total, so percentGood is 500/total·100, strictly below 100; with 1000 such
links percentGood is 50 and the status is fail. -/
theorem link_cap_penalty (d : Doc)
    (h : 500 < (linksOf d).length)
    (hall : ∀ a ∈ linksOf d, has_meaningful_text (get_text a " ") = true) :
    meaningfulCount500 d = 500 ∧
    percent (meaningfulCount500 d) (linksOf d).length < 100 ∧
    (check_links_text d).status = statusFromPct (percent 500 (linksOf d).length) 90 70 ∧
    meaningfulCount500 (linksDoc 1000) = 500 ∧
    percent (meaningfulCount500 (linksDoc 1000)) (linksOf (linksDoc 1000)).length = 50 ∧
    (check_links_text (linksDoc 1000)).status = "fail" := by
  have hcount : meaningfulCount500 d = 500 := by
    unfold meaningfulCount500
    rw [List.filter_eq_self.mpr (fun a ha => hall a (List.mem_of_mem_take ha)),
      List.length_take]
    omega
  have hlt : percent (meaningfulCount500 d) (linksOf d).length < 100 := by
    rw [hcount]
    exact_mod_cast (percent_lt_iff 100 500 (linksOf d).length (by omega)).mpr (by omega)
  refine ⟨hcount, hlt, ?_, ?_, ?_, ?_⟩
  · rw [check_links_text_status d (by omega), hcount]
  · rw [meaningfulCount500_linksDoc]
    decide
  · rw [meaningfulCount500_linksDoc, linksOf_linksDoc, List.length_replicate,
      show min 500 1000 = 500 from by decide]
    unfold percent
    rw [if_neg (by norm_num)]
    norm_num
  · have h0 : (linksOf (linksDoc 1000)).length ≠ 0 := by
      rw [linksOf_linksDoc, List.length_replicate]
      decide
    rw [check_links_text_status _ h0, meaningfulCount500_linksDoc, linksOf_linksDoc,
      List.length_replicate, show min 500 1000 = 500 from by decide]
    refine statusFromPct_fail ?_ ?_
    · exact_mod_cast (percent_lt_iff 90 500 1000 (by norm_num)).mpr (by decide)
    · exact_mod_cast (percent_lt_iff 70 500 1000 (by norm_num)).mpr (by decide)

/-- Witness for C10 at 501 links, each meaningful: the capped count is 500 and
the percentage falls strictly below 100. -/
theorem link_cap_penalty_witness :
    meaningfulCount500 (linksDoc 501) = 500 ∧
    percent (meaningfulCount500 (linksDoc 501)) (linksOf (linksDoc 501)).length < 100 := by
  have h5 : 500 < (linksOf (linksDoc 501)).length := by
    rw [linksOf_linksDoc, List.length_replicate]
    norm_num
  have hall : ∀ a ∈ linksOf (linksDoc 501), has_meaningful_text (get_text a " ") = true := by
    rw [linksOf_linksDoc]
    intro a ha
    rw [List.eq_of_mem_replicate ha]
    rfl
  exact ⟨(link_cap_penalty (linksDoc 501) h5 hall).1,
    (link_cap_penalty (linksDoc 501) h5 hall).2.1⟩

end AccessCheck
